import Mathlib

/-!
# Verification of the space-rocks entity/simulation engine

A shallow embedding of the space-rocks game sources (`main.py`, `Ship.py`,
`Background.py`, `ControllerInput.py`, `controller_config.py`) and proofs
about them.

Conventions of the embedding:
* Python floats are modelled as rationals (`ℚ`).
* `pygame.Rect` coordinates are integers (`ℤ`); assigning a float to a rect
  coordinate truncates toward zero (Python `int()` conversion, as pygame's
  C code does `(int)value`), modelled by `truncQ`.
* Fallible Python code (exceptions such as `RuntimeError`, `ValueError`,
  `KeyError`) is modelled with `Except String`.
* Object identity inside the driver's element list is modelled by the
  list index.
-/

namespace SpaceRocks

/-! ## Rectangles and pygame collision semantics -/

/-- A pygame `Rect`: integer position of the top-left corner plus integer
width and height. -/
structure Rect where
  x : ℤ
  y : ℤ
  w : ℤ
  h : ℤ
deriving DecidableEq, Repr

/-- pygame's `colliderect` test (`_pg_do_rects_intersect` in pygame's
`rect.c`): the rectangles overlap strictly, edge contact not included. -/
def collideRect (a b : Rect) : Bool :=
  decide (a.x < b.x + b.w ∧ a.y < b.y + b.h ∧ a.x + a.w > b.x ∧ a.y + a.h > b.y)

/-- A game element as seen by `main.py`'s collision pass: its bounding
rectangle and its `collidable` flag (`Background` is constructed with
`collidable=False`; `Ship` and `Rock` use the default `True`). -/
structure Element where
  rect : Rect
  collidable : Bool
deriving DecidableEq, Repr

/-- Whether the element at index `i` of the driver's element list is
collidable (`false` when the index is out of range). -/
def collidableIdx (elems : List Element) (i : ℕ) : Bool :=
  match elems[i]? with
  | some e => e.collidable
  | none => false

/-- Whether the bounding boxes of the elements at indices `i` and `j`
overlap (pygame `colliderect`). -/
def overlapIdx (elems : List Element) (i j : ℕ) : Bool :=
  match elems[i]?, elems[j]? with
  | some a, some b => collideRect a.rect b.rect
  | _, _ => false

/-- One iteration of the outer collision loop in `main.py` for the element
at index `i`: if it is collidable, the inner `collidelistall` pass produces
one notification `(i, j)` (meaning `elems[i].collided_with(elems[j])`) for
every *other* collidable element `j` whose rect overlaps, in list order. -/
def passFor (elems : List Element) (i : ℕ) : List (ℕ × ℕ) :=
  if collidableIdx elems i then
    ((List.range elems.length).filter
        (fun j => (j != i) && collidableIdx elems j && overlapIdx elems i j)).map
      (fun j => (i, j))
  else []

/-- The outer loop of the collision pass, iterating over the given indices. -/
def passAux (elems : List Element) : List ℕ → List (ℕ × ℕ)
  | [] => []
  | i :: is => passFor elems i ++ passAux elems is

/-- The complete per-frame collision pass of `main.py`: the ordered list of
`collided_with` notifications `(receiver index, argument index)` issued
during one frame. -/
def collisionPass (elems : List Element) : List (ℕ × ℕ) :=
  passAux elems (List.range elems.length)

/-- A concrete element list for evaluation: two overlapping collidable
elements and one non-collidable element (a `Background`-like entry). -/
def elemsEx : List Element :=
  [⟨⟨0, 0, 10, 10⟩, true⟩, ⟨⟨5, 5, 10, 10⟩, true⟩, ⟨⟨0, 0, 800, 800⟩, false⟩]

/-! ## Controller input (`ControllerInput.py`, `controller_config.py`) -/

/-- The keyboard keys read by `ControllerInput` (`pygame.key.get_pressed()`
entries for `K_LEFT`, `K_RIGHT`, `K_UP`, `K_DOWN`, `K_SPACE`). -/
structure KeyState where
  left : Bool
  right : Bool
  up : Bool
  down : Bool
  space : Bool
deriving DecidableEq, Repr

/-- An attached joystick device: its GUID, its axis values (`get_axis`)
and its button values (`get_button`). -/
structure Joystick where
  guid : String
  axes : List ℚ
  buttons : List ℚ
deriving DecidableEq, Repr

/-- The `"paddle"` sub-dictionary of a `_button_mapping` entry; each key
may be absent (`none`). -/
structure PaddleMap where
  axis : Option ℕ
  name : Option String
deriving DecidableEq, Repr

/-- The `"serve"` sub-dictionary of a `_button_mapping` entry; each key
may be absent (`none`). -/
structure ServeMap where
  button : Option ℕ
  name : Option String
deriving DecidableEq, Repr

/-- One `_button_mapping` entry (a Python dict whose keys may be absent). -/
structure ButtonMapping where
  name : Option String
  paddle : Option PaddleMap
  serve : Option ServeMap
deriving DecidableEq, Repr

/-- The `_button_mapping` dictionary: GUID keys paired with entries. -/
def ConfigTable : Type := List (String × ButtonMapping)

/-- The literal `_button_mapping` table of `controller_config.py`. -/
def buttonMappingTable : ConfigTable :=
  [("default",
    ⟨some "default - used if device guid is not in this table",
     some ⟨some 0, some "Axis 0"⟩, some ⟨some 0, some "Button 0"⟩⟩),
   ("0300e6365e0400003c00000001010000",
    ⟨some "Microsoft SideWinder Joystick",
     some ⟨some 0, some "Joystick"⟩, some ⟨some 0, some "Trigger"⟩⟩),
   ("03008fe54c050000cc09000000016800",
    ⟨some "PS4 Controller",
     some ⟨some 0, some "L-Stick"⟩, some ⟨some 0, some "╳ button"⟩⟩)]

/-- Mapping resolution used throughout `ControllerInput`: the entry for the
device GUID if present (`true` = matched explicitly), else the `"default"`
entry (`false` = fallback); `none` when neither key exists (a Python
`KeyError`). -/
def resolveMapping (table : ConfigTable) (guid : String) :
    Option (ButtonMapping × Bool) :=
  match List.lookup guid table with
  | some bm => some (bm, true)
  | none => (List.lookup "default" table).map (fun bm => (bm, false))

/-- The four required mapping fields checked by `ControllerInput.__init__`,
in source order. -/
inductive MissingField where
  | paddleEntry
  | paddleAxis
  | serveEntry
  | serveButton
deriving DecidableEq, Repr

/-- The first missing required field of param `bm`, following the order of
the four `if`-checks in `ControllerInput.__init__` (`"paddle"`, then
`"axis"` inside it, then `"serve"`, then `"button"` inside it). -/
def firstMissing (bm : ButtonMapping) : Option MissingField :=
  match bm.paddle with
  | none => some .paddleEntry
  | some p =>
    match p.axis with
    | none => some .paddleAxis
    | some _ =>
      match bm.serve with
      | none => some .serveEntry
      | some sv =>
        match sv.button with
        | none => some .serveButton
        | some _ => none

/-- The error-message tail appended for each missing field (verbatim from
`ControllerInput.__init__`). -/
def fieldText : MissingField → String
  | .paddleEntry => " does not have an \"paddle\" entry in it."
  | .paddleAxis => " does not have an \"axis\" entry in its \"paddle\" entry."
  | .serveEntry => " does not have an \"serve\" entry in it."
  | .serveButton => " does not have an \"button\" entry in its \"serve\" entry."

/-- The dictionary key each `MissingField` refers to. -/
def fieldName : MissingField → String
  | .paddleEntry => "paddle"
  | .paddleAxis => "axis"
  | .serveEntry => "serve"
  | .serveButton => "button"

/-- The pre-filled start of the configuration error message (verbatim from
`ControllerInput.__init__`), recording whether the GUID was found in the
table or the `"default"` entry was used. -/
def msgHead (guid : String) (known : Bool) : String :=
  if known then
    "The joystick with the GUID \"" ++ guid ++
      "\" has an entry in the controller_config.py file but it"
  else
    "The joystick with the GUID \"" ++ guid ++
      "\" does not have an entry in controller_config.py file and the entry for the \"default\" GUID"

/-- The per-joystick configuration check of `ControllerInput.__init__`:
resolve the mapping (a missing `"default"` entry is a `KeyError`), then
raise `RuntimeError` on the first missing required field. -/
def validateJoystick (table : ConfigTable) (j : Joystick) : Except String Unit :=
  match resolveMapping table j.guid with
  | none => Except.error "KeyError: default"
  | some (bm, known) =>
    match firstMissing bm with
    | some f => Except.error (msgHead j.guid known ++ fieldText f)
    | none => Except.ok ()

/-- The enumeration loop of `ControllerInput.__init__`: each attached
joystick is validated in order, stopping at the first error. -/
def validateAll (table : ConfigTable) : List Joystick → Except String Unit
  | [] => Except.ok ()
  | j :: rest =>
    match validateJoystick table j with
    | Except.error e => Except.error e
    | Except.ok _ => validateAll table rest

/-- The warning printed by `ControllerInput.__init__` when pygame is not
yet initialized (with `ControllerInput` substituted for the class name). -/
def warnMsg : String :=
  "WARNING: pygame was not initialized when a ControllerInput object was instantiated. It has now been initialized, but pygame.init() should normally be called before instantiating any instances of the ControllerInput class."

/-- The state held by the `ControllerInput` singleton after `__init__`:
its `_joysticks` list. -/
structure CtrlState where
  joysticks : List Joystick
deriving DecidableEq, Repr

/-- `ControllerInput.__init__` on a not-yet-initialized instance, given
whether pygame is initialized, the attached joysticks, and the mapping
table. Result: the printed warnings, whether pygame is initialized
afterwards, and either the constructed state or the raised exception.
(The informational per-joystick prints are not modelled.) -/
def ctrlInit (pygInit : Bool) (js : List Joystick) (table : ConfigTable) :
    List String × Bool × Except String CtrlState :=
  let warns := if pygInit then [] else [warnMsg]
  let res :=
    if js.isEmpty then Except.ok ⟨js⟩
    else
      match validateAll table js with
      | Except.error e => Except.error e
      | Except.ok _ => Except.ok ⟨js⟩
  (warns, true, res)

/-- Constructing `ControllerInput()`: `__new__` returns the existing
singleton when there is one, and `__init__` does nothing when
`_is_initialized` is already set, so an existing state passes through
untouched; otherwise `ctrlInit` runs. -/
def ctrlConstruct (existing : Option CtrlState) (pygInit : Bool)
    (js : List Joystick) (table : ConfigTable) :
    List String × Bool × Except String CtrlState :=
  match existing with
  | some s => ([], pygInit, Except.ok s)
  | none => ctrlInit pygInit js table

/-- The keyboard part of `ControllerInput.paddle()`: `movement` starts at
zero, the left arrow subtracts 1.0, the right arrow adds 1.0. -/
def kbPaddle (k : KeyState) : ℚ :=
  (0 + (if k.left then -1 else 0)) + (if k.right then 1 else 0)

/-- The axis index `button_mapping["paddle"]["axis"]` used by `paddle()`
for one joystick; `none` models a `KeyError` during the lookup chain. -/
def paddleAxisOf (table : ConfigTable) (j : Joystick) : Option ℕ :=
  match resolveMapping table j.guid with
  | none => none
  | some (bm, _) =>
    match bm.paddle with
    | none => none
    | some p => p.axis

/-- `joystick.get_axis(i)`: `none` models the pygame error on an invalid
axis index. -/
def getAxis (j : Joystick) (i : ℕ) : Option ℚ :=
  j.axes[i]?

/-- The joystick loop of `ControllerInput.paddle()`: each joystick's mapped
axis value is added to `movement`. -/
def paddleLoop (table : ConfigTable) : List Joystick → ℚ → Except String ℚ
  | [], acc => Except.ok acc
  | j :: rest, acc =>
    match paddleAxisOf table j with
    | none => Except.error "KeyError: paddle axis"
    | some i =>
      match getAxis j i with
      | none => Except.error "Invalid joystick axis"
      | some v => paddleLoop table rest (acc + v)

/-- `ControllerInput.paddle()`: keyboard contribution, joystick loop, then
the final clip `max(-1.0, min(1.0, movement))`. -/
def paddle (table : ConfigTable) (k : KeyState) (js : List Joystick) :
    Except String ℚ :=
  match paddleLoop table js (kbPaddle k) with
  | Except.error e => Except.error e
  | Except.ok m => Except.ok (max (-1) (min 1 m))

/-- The button index `button_mapping["serve"]["button"]` used by `serve()`
for one joystick; `none` models a `KeyError` during the lookup chain. -/
def serveButtonOf (table : ConfigTable) (j : Joystick) : Option ℕ :=
  match resolveMapping table j.guid with
  | none => none
  | some (bm, _) =>
    match bm.serve with
    | none => none
    | some sv => sv.button

/-- `joystick.get_button(i)`: `none` models the pygame error on an invalid
button index. -/
def getButton (j : Joystick) (i : ℕ) : Option ℚ :=
  j.buttons[i]?

/-- The joystick loop of `ControllerInput.serve()`: returns `True` as soon
as one joystick's mapped button magnitude exceeds 0.5. -/
def serveLoop (table : ConfigTable) : List Joystick → Except String Bool
  | [] => Except.ok false
  | j :: rest =>
    match serveButtonOf table j with
    | none => Except.error "KeyError: serve button"
    | some i =>
      match getButton j i with
      | none => Except.error "Invalid joystick button"
      | some v => if 1/2 < |v| then Except.ok true else serveLoop table rest

/-- `ControllerInput.serve()`: `True` immediately if the space bar is held,
otherwise the joystick loop. -/
def serve (table : ConfigTable) (k : KeyState) (js : List Joystick) :
    Except String Bool :=
  if k.space then Except.ok true else serveLoop table js

/-- The value a joystick contributes to `paddle()` (its mapped paddle-axis
value, 0 when unresolvable); used to state the raw, unclamped sum the spec
talks about. -/
def axisVal (table : ConfigTable) (j : Joystick) : ℚ :=
  (((paddleAxisOf table j).bind (getAxis j)).getD 0)

/-- The raw lateral-movement sum described by the spec: the keyboard
contribution plus every joystick's mapped paddle-axis value, no inversion,
before clamping. -/
def rawPaddleSum (table : ConfigTable) (k : KeyState) (js : List Joystick) : ℚ :=
  kbPaddle k + (js.map (axisVal table)).sum

/-- Modelled from the spec: `ControllerInput.thrust()` is called by
`Ship.update` and described in the spec (keyboard up/down arrows contribute
+1.0/−1.0, each joystick contributes its mapped thrust-axis value times an
inversion flag, contributions are summed then clamped to [-1, 1]) but the
method is absent from `src/ControllerInput.py`. The per-joystick
contribution is abstracted as the function argument `jc`, since the thrust
mapping fields are also absent from `src/controller_config.py`. -/
def thrust (k : KeyState) (jc : Joystick → ℚ) (js : List Joystick) : ℚ :=
  max (-1) (min 1
    ((0 + (if k.up then 1 else 0) + (if k.down then -1 else 0)) +
      (js.map jc).sum))

/-! ## Ship (`Ship.py`) -/

/-- Python `int()` conversion of a rational (truncation toward zero), as
pygame applies when a float is assigned to an integer `Rect` coordinate. -/
def truncQ (q : ℚ) : ℤ :=
  q.num.tdiv q.den

/-- `_THRUSTER_SPEED_PPM` from `Ship.py`. -/
def THRUSTER_SPEED_PPM : ℚ := 1 / 100

/-- The draw surface passed to `Ship.update` (only its presence matters to
the embedded code). -/
structure Screen where
  w : ℤ
  h : ℤ
deriving DecidableEq, Repr

/-- The ship state touched by `Ship.update`: the integer `rect` position,
the float `velocity` and the float `orientation` vectors. -/
structure ShipState where
  x : ℤ
  y : ℤ
  vx : ℚ
  vy : ℚ
  ox : ℚ
  oy : ℚ
deriving DecidableEq, Repr

/-- The `ValueError` message raised by `Ship.update` when no screen is
supplied (with `Ship` substituted for the class name). -/
def screenErrMsg : String :=
  "A screen parameter MUST be supplied to the Ship.update() method"

/-- `Ship.update(dt, screen)`: raise `ValueError` if `screen is None`; else
`velocity += orientation * (thrust * _THRUSTER_SPEED_PPM)`, then
`rect.x += velocity.x * dt` and `rect.y += velocity.y * dt` (each rect
assignment truncating the float sum toward zero). `thrustSignal` stands for
the value returned by `ControllerInput.thrust()` (see `thrust`). -/
def shipUpdate (s : ShipState) (dt : ℕ) (thrustSignal : ℚ)
    (screen : Option Screen) : Except String ShipState :=
  match screen with
  | none => Except.error screenErrMsg
  | some _ =>
    let vx := s.vx + s.ox * (thrustSignal * THRUSTER_SPEED_PPM)
    let vy := s.vy + s.oy * (thrustSignal * THRUSTER_SPEED_PPM)
    Except.ok
      { x := truncQ ((s.x : ℚ) + vx * (dt : ℚ))
        y := truncQ ((s.y : ℚ) + vy * (dt : ℚ))
        vx := vx
        vy := vy
        ox := s.ox
        oy := s.oy }

/-- A keyboard state holding only the up arrow (full forward thrust). -/
def kUp : KeyState := ⟨false, false, true, false, false⟩

/-- A ship at rest at rect position (400, 300), oriented straight up. -/
def s0 : ShipState := ⟨400, 300, 0, 0, 0, -1⟩

/-- A ship at rect position (100, 400) moving slowly upward. -/
def s1 : ShipState := ⟨100, 400, 0, -1/100, 0, -1⟩

/-- The 800×800 game screen set up by `main.py`. -/
def scr0 : Screen := ⟨800, 800⟩

/-- A keyboard state holding only the right arrow. -/
def kRight : KeyState := ⟨false, true, false, false, false⟩

/-- A keyboard state with no key held. -/
def kNone : KeyState := ⟨false, false, false, false, false⟩

/-- A joystick with an unknown GUID, one axis at 3/2 and one pressed
button. -/
def jx : Joystick := ⟨"aaaa", [3/2], [1]⟩

/-- A joystick with an unknown GUID and no axes or buttons. -/
def jBad : Joystick := ⟨"abc", [], []⟩

/-- A mapping table whose `"default"` entry is missing every required
field. -/
def tblBad : ConfigTable := [("default", ⟨none, none, none⟩)]

/-! ## Helper lemmas -/

theorem collideRect_comm (a b : Rect) : collideRect a b = collideRect b a := by
  simp only [collideRect, decide_eq_decide]
  constructor <;> (intro h; exact ⟨h.2.2.1, h.2.2.2, h.1, h.2.1⟩)

theorem overlapIdx_comm (elems : List Element) (i j : ℕ) :
    overlapIdx elems i j = overlapIdx elems j i := by
  unfold overlapIdx
  cases elems[i]? <;> cases elems[j]? <;> simp [collideRect_comm]

theorem count_map_pair (i j : ℕ) (l : List ℕ) :
    List.count (i, j) (l.map (fun k => (i, k))) = List.count j l := by
  induction l with
  | nil => rfl
  | cons a l ih =>
    by_cases h : a = j
    · subst h
      simp [List.count_cons, ih]
    · simp [List.count_cons, ih, h, Prod.ext_iff]

theorem count_passFor_self (elems : List Element) (i j : ℕ) :
    List.count (i, j) (passFor elems i) =
      if j < elems.length ∧ j ≠ i ∧ collidableIdx elems i = true ∧
          collidableIdx elems j = true ∧ overlapIdx elems i j = true
      then 1 else 0 := by
  unfold passFor
  by_cases hc : collidableIdx elems i = true
  · rw [if_pos hc]
    rw [count_map_pair]
    by_cases hmem : j ∈ (List.range elems.length).filter
        (fun k => (k != i) && collidableIdx elems k && overlapIdx elems i k)
    · have hnd : ((List.range elems.length).filter
          (fun k => (k != i) && collidableIdx elems k && overlapIdx elems i k)).Nodup :=
        (List.nodup_range _).filter _
      rw [List.count_eq_one_of_mem hnd hmem]
      simp only [List.mem_filter, List.mem_range, Bool.and_eq_true, bne_iff_ne] at hmem
      rw [if_pos ⟨hmem.1, hmem.2.1.1, hc, hmem.2.1.2, hmem.2.2⟩]
    · rw [List.count_eq_zero_of_not_mem hmem]
      simp only [List.mem_filter, List.mem_range, Bool.and_eq_true, bne_iff_ne] at hmem
      rw [if_neg]
      intro ⟨h1, h2, _, h4, h5⟩
      exact hmem ⟨h1, ⟨h2, h4⟩, h5⟩
  · rw [if_neg hc, if_neg]
    · simp
    · intro ⟨_, _, h3, _, _⟩
      exact hc h3

theorem count_passFor_other (elems : List Element) (i k j : ℕ) (h : k ≠ i) :
    List.count (k, j) (passFor elems i) = 0 := by
  rw [List.count_eq_zero]
  intro hmem
  unfold passFor at hmem
  by_cases hc : collidableIdx elems i = true
  · rw [if_pos hc] at hmem
    rcases List.mem_map.mp hmem with ⟨a, _, ha⟩
    exact h (congrArg Prod.fst ha).symm
  · rw [if_neg hc] at hmem
    exact absurd hmem (List.not_mem_nil _)

theorem count_passAux (elems : List Element) (L : List ℕ) (hL : L.Nodup) (i j : ℕ) :
    List.count (i, j) (passAux elems L) =
      if i ∈ L then List.count (i, j) (passFor elems i) else 0 := by
  induction L with
  | nil => simp [passAux]
  | cons a L ih =>
    have hnd := List.nodup_cons.mp hL
    rw [passAux, List.count_append, ih hnd.2]
    by_cases hai : a = i
    · subst hai
      rw [if_neg hnd.1, if_pos (List.mem_cons_self _ _)]
      exact Nat.add_zero _
    · rw [count_passFor_other elems a i j (fun h => hai h.symm), Nat.zero_add]
      by_cases hiL : i ∈ L
      · rw [if_pos hiL, if_pos (List.mem_cons_of_mem _ hiL)]
      · rw [if_neg hiL, if_neg]
        intro hmem
        rcases List.mem_cons.mp hmem with h | h
        · exact hai h.symm
        · exact hiL h

theorem count_collisionPass (elems : List Element) (i j : ℕ) :
    List.count (i, j) (collisionPass elems) =
      if i < elems.length ∧ j < elems.length ∧ j ≠ i ∧ collidableIdx elems i = true ∧
          collidableIdx elems j = true ∧ overlapIdx elems i j = true
      then 1 else 0 := by
  unfold collisionPass
  rw [count_passAux elems _ (List.nodup_range _) i j]
  by_cases hi : i < elems.length
  · rw [if_pos (List.mem_range.mpr hi), count_passFor_self]
    by_cases hrest : j < elems.length ∧ j ≠ i ∧ collidableIdx elems i = true ∧
        collidableIdx elems j = true ∧ overlapIdx elems i j = true
    · rw [if_pos hrest, if_pos ⟨hi, hrest⟩]
    · rw [if_neg hrest, if_neg (fun h => hrest h.2)]
  · rw [if_neg (fun h => hi (List.mem_range.mp h)), if_neg (fun h => hi h.1)]

theorem truncQ_intCast (n : ℤ) : truncQ (n : ℚ) = n := by
  simp [truncQ, Rat.num_intCast, Rat.den_intCast, Int.tdiv_one]

theorem truncQ_of_nonneg (q : ℚ) (h : 0 ≤ q) : truncQ q = Int.floor q := by
  rw [truncQ, Rat.floor_def,
    Int.tdiv_eq_ediv (Rat.num_nonneg.mpr h) (Int.ofNat_nonneg _)]

theorem truncQ_neg (q : ℚ) : truncQ (-q) = -truncQ q := by
  rw [truncQ, truncQ, Rat.num_neg_eq_neg_num, Rat.den_neg_eq_den, Int.neg_tdiv]

theorem truncQ_of_nonpos (q : ℚ) (h : q ≤ 0) : truncQ q = Int.ceil q := by
  have h1 : truncQ q = -truncQ (-q) := by rw [truncQ_neg, neg_neg]
  rw [h1, truncQ_of_nonneg (-q) (neg_nonneg.mpr h), Int.floor_neg, neg_neg]

theorem paddleLoop_ok (table : ConfigTable) (js : List Joystick) (acc : ℚ)
    (h : ∀ j ∈ js, ∃ i v, paddleAxisOf table j = some i ∧ getAxis j i = some v) :
    paddleLoop table js acc = Except.ok (acc + (js.map (axisVal table)).sum) := by
  induction js generalizing acc with
  | nil => simp [paddleLoop]
  | cons j rest ih =>
    obtain ⟨i, v, hio, hv⟩ := h j (List.mem_cons_self _ _)
    have hav : axisVal table j = v := by simp [axisVal, hio, hv]
    simp only [paddleLoop, hio, hv]
    rw [ih (acc + v) (fun jj hjj => h jj (List.mem_cons_of_mem _ hjj)),
      List.map_cons, List.sum_cons, hav]
    exact congrArg Except.ok (by ring)

theorem serveLoop_ok (table : ConfigTable) (js : List Joystick)
    (h : ∀ j ∈ js, ∃ i v, serveButtonOf table j = some i ∧ getButton j i = some v) :
    ∃ b, serveLoop table js = Except.ok b ∧
      (b = true ↔ ∃ j ∈ js, ∃ i v, serveButtonOf table j = some i ∧
        getButton j i = some v ∧ 1/2 < |v|) := by
  induction js with
  | nil =>
    refine ⟨false, rfl, ?_⟩
    simp
  | cons j rest ih =>
    obtain ⟨i, v, hio, hv⟩ := h j (List.mem_cons_self _ _)
    by_cases hhot : (1 : ℚ)/2 < |v|
    · refine ⟨true, ?_, ?_⟩
      · simp only [serveLoop, hio, hv]
        rw [if_pos hhot]
      · simp only [true_iff]
        exact ⟨j, List.mem_cons_self _ _, i, v, hio, hv, hhot⟩
    · obtain ⟨b, hb, hiff⟩ := ih (fun jj hjj => h jj (List.mem_cons_of_mem _ hjj))
      refine ⟨b, ?_, ?_⟩
      · simp only [serveLoop, hio, hv]
        rw [if_neg hhot]
        exact hb
      · rw [hiff]
        constructor
        · rintro ⟨jj, hjj, w⟩
          exact ⟨jj, List.mem_cons_of_mem _ hjj, w⟩
        · rintro ⟨jj, hjj, i', v', hio', hv', hhot'⟩
          rcases List.mem_cons.mp hjj with hjeq | hjmem
          · subst hjeq
            rw [hio] at hio'
            cases hio'
            rw [hv] at hv'
            cases hv'
            exact absurd hhot' hhot
          · exact ⟨jj, hjmem, i', v', hio', hv', hhot'⟩

theorem validateAll_append_error (table : ConfigTable) (pre : List Joystick)
    (j : Joystick) (rest : List Joystick) (e : String)
    (hpre : ∀ jj ∈ pre, validateJoystick table jj = Except.ok ())
    (hj : validateJoystick table j = Except.error e) :
    validateAll table (pre ++ j :: rest) = Except.error e := by
  induction pre with
  | nil => simp [validateAll, hj]
  | cons a pre ih =>
    have ha := hpre a (List.mem_cons_self _ _)
    simp only [List.cons_append, validateAll, ha]
    exact ih (fun jj hjj => hpre jj (List.mem_cons_of_mem _ hjj))

/-! ## Claim theorems -/

/-- C1: For every frame, if two collidable entities A and B have overlapping
bounding boxes, then during that frame's collision pass `A.collided_with(B)`
is invoked exactly once and `B.collided_with(A)` is invoked exactly once; if
their boxes do not overlap, neither notification fires; and a non-collidable
entity (Background) never appears as the receiver or the argument of any
`collided_with` call. -/
theorem collision_pass_pairwise (elems : List Element) (i j : ℕ)
    (hi : i < elems.length) (hj : j < elems.length) (hij : i ≠ j) :
    (collidableIdx elems i = true → collidableIdx elems j = true →
        overlapIdx elems i j = true →
      List.count (i, j) (collisionPass elems) = 1 ∧
      List.count (j, i) (collisionPass elems) = 1) ∧
    (overlapIdx elems i j = false →
      List.count (i, j) (collisionPass elems) = 0 ∧
      List.count (j, i) (collisionPass elems) = 0) ∧
    (collidableIdx elems i = false →
      ∀ k, List.count (i, k) (collisionPass elems) = 0 ∧
           List.count (k, i) (collisionPass elems) = 0) := by
  refine ⟨?_, ?_, ?_⟩
  · intro hci hcj hov
    constructor
    · rw [count_collisionPass]
      exact if_pos ⟨hi, hj, fun h => hij h.symm, hci, hcj, hov⟩
    · rw [count_collisionPass]
      refine if_pos ⟨hj, hi, hij, hcj, hci, ?_⟩
      rw [overlapIdx_comm]
      exact hov
  · intro hov
    have hov' : overlapIdx elems j i = false := by
      rw [overlapIdx_comm]
      exact hov
    constructor
    · rw [count_collisionPass]
      refine if_neg ?_
      intro h
      exact absurd h.2.2.2.2.2 (by simp [hov])
    · rw [count_collisionPass]
      refine if_neg ?_
      intro h
      exact absurd h.2.2.2.2.2 (by simp [hov'])
  · intro hci k
    constructor
    · rw [count_collisionPass]
      refine if_neg ?_
      intro h
      exact absurd h.2.2.2.1 (by simp [hci])
    · rw [count_collisionPass]
      refine if_neg ?_
      intro h
      exact absurd h.2.2.2.2.1 (by simp [hci])

/-- Witness for C1 at a concrete element list: indices 0 and 1 are
collidable and overlapping, index 2 is non-collidable. -/
theorem collision_pass_pairwise_witness :
    (collidableIdx elemsEx 0 = true → collidableIdx elemsEx 1 = true →
        overlapIdx elemsEx 0 1 = true →
      List.count (0, 1) (collisionPass elemsEx) = 1 ∧
      List.count (1, 0) (collisionPass elemsEx) = 1) ∧
    (overlapIdx elemsEx 0 1 = false →
      List.count (0, 1) (collisionPass elemsEx) = 0 ∧
      List.count (1, 0) (collisionPass elemsEx) = 0) ∧
    (collidableIdx elemsEx 0 = false →
      ∀ k, List.count (0, k) (collisionPass elemsEx) = 0 ∧
           List.count (k, 0) (collisionPass elemsEx) = 0) :=
  collision_pass_pairwise elemsEx 0 1 (by decide) (by decide) (by decide)

/-- C8: Calling `Ship.update` without supplying a draw-surface (screen)
argument raises a fatal `ValueError` immediately; in `shipUpdate` the check
precedes the velocity and position assignments, so no state mutation
occurs and the caller's ship state is unchanged. -/
theorem ship_update_missing_screen (s : ShipState) (dt : ℕ) (t : ℚ) :
    shipUpdate s dt t none = Except.error screenErrMsg := rfl

/-- C2 counterexample: for the ship at rest at rect position (400, 300)
with orientation (0, −1) and a held forward-thrust signal of 1.0,
`Ship.update` with `dt = 16` sets `velocity.y = -1/100` but moves
`rect.y` from 300 to 299 — an integer result that is *not* equal to
`300 - |velocity.y| * dt = 299.84`, so position.y does not decrease by
`|velocity.y| * dt` as the claim states. -/
theorem ship_update_exact_position_cex :
    shipUpdate s0 16 (thrust kUp (fun _ => 0) []) (some scr0) =
      Except.ok ⟨400, 299, 0, -1/100, 0, -1⟩ ∧
    ((299 : ℚ) ≠ (300 : ℚ) - |(-1/100 : ℚ)| * 16) := by
  have ht : thrust kUp (fun _ => 0) ([] : List Joystick) = 1 := by
    norm_num [thrust, kUp]
  constructor
  · rw [ht]
    simp only [shipUpdate, s0, scr0, THRUSTER_SPEED_PPM]
    have hx : ((400 : ℤ) : ℚ) + ((0 : ℚ) + 0 * (1 * (1 / 100))) * ((16 : ℕ) : ℚ)
        = ((400 : ℤ) : ℚ) := by norm_num
    have hy : ((300 : ℤ) : ℚ) + ((0 : ℚ) + (-1) * (1 * (1 / 100))) * ((16 : ℕ) : ℚ)
        = 7496 / 25 := by norm_num
    rw [hx, hy, truncQ_intCast, truncQ_of_nonneg _ (by norm_num)]
    norm_num [Int.floor_eq_iff]
  · rw [abs_of_neg (by norm_num : (-1/100 : ℚ) < 0)]
    norm_num

/-- C2 (amended): For a Ship with zero initial velocity and orientation
(0, −1), one call to `Ship.update(dt, screen)` with a held forward-thrust
signal of 1.0 decreases the velocity's y-component by exactly
`THRUSTER_SPEED_PPM` (with no drag or decay term); each rect coordinate is
then incremented by `velocity * dt` with the float sum truncated toward
zero, so `position.y` becomes `truncQ(position.y + velocity.y * dt)` (the
exact decrease `|velocity.y| * dt` is obtained only when that product is an
integer). -/
theorem ship_update_thrust_amended (s : ShipState) (dt : ℕ) (scr : Screen)
    (k : KeyState) (jc : Joystick → ℚ) (js : List Joystick)
    (hvx : s.vx = 0) (hvy : s.vy = 0) (hox : s.ox = 0) (hoy : s.oy = -1)
    (ht : thrust k jc js = 1) :
    ∃ s', shipUpdate s dt (thrust k jc js) (some scr) = Except.ok s' ∧
      s'.vy = s.vy - THRUSTER_SPEED_PPM ∧ s'.vx = 0 ∧
      s'.x = s.x ∧ s'.y = truncQ ((s.y : ℚ) + s'.vy * (dt : ℚ)) := by
  rw [ht]
  simp only [shipUpdate]
  refine ⟨_, rfl, ?_, ?_, ?_, rfl⟩
  · simp only [hvy, hoy]
    rw [THRUSTER_SPEED_PPM]
    norm_num
  · simp only [hvx, hox]
    norm_num
  · simp only [hvx, hox]
    have h : (s.x : ℚ) + ((0 : ℚ) + 0 * (1 * THRUSTER_SPEED_PPM)) * (dt : ℚ)
        = (s.x : ℚ) := by ring
    rw [h, truncQ_intCast]

/-- Witness for C2 (amended) at the concrete ship `s0`, `dt = 16`, the
up-arrow keyboard state and no joysticks. -/
theorem ship_update_thrust_amended_witness :
    ∃ s', shipUpdate s0 16 (thrust kUp (fun _ => 0) []) (some scr0) =
        Except.ok s' ∧
      s'.vy = s0.vy - THRUSTER_SPEED_PPM ∧ s'.vx = 0 ∧
      s'.x = s0.x ∧ s'.y = truncQ ((s0.y : ℚ) + s'.vy * ((16 : ℕ) : ℚ)) :=
  ship_update_thrust_amended s0 16 scr0 kUp (fun _ => 0) []
    rfl rfl rfl rfl (by norm_num [thrust, kUp])

/-- C10 counterexample: the ship at rect position (100, 400) with velocity
(0, −1/100) and zero thrust moves, in one `Ship.update` with `dt = 16`,
from `rect.y = 400` to `rect.y = 399` even though the displacement
`|velocity.y * dt| = 0.16` is sub-pixel; the sub-pixel displacement is not
lost — pygame's truncation snaps the non-integral float sum 399.84 to 399,
a whole-pixel move. -/
theorem ship_update_truncation_cex :
    shipUpdate s1 16 0 (some scr0) =
      Except.ok ⟨100, 399, 0, -1/100, 0, -1⟩ ∧
    |(-1/100 : ℚ) * 16| < 1 ∧ (399 : ℤ) ≠ 400 := by
  have habs : |(-1/100 : ℚ) * 16| < 1 := by
    rw [abs_of_neg (by norm_num : (-1/100 : ℚ) * 16 < 0)]
    norm_num
  refine ⟨?_, habs, by norm_num⟩
  simp only [shipUpdate, s1, scr0, THRUSTER_SPEED_PPM]
  have hx : ((100 : ℤ) : ℚ) + ((0 : ℚ) + 0 * (0 * (1 / 100))) * ((16 : ℕ) : ℚ)
      = ((100 : ℤ) : ℚ) := by norm_num
  have hy : ((400 : ℤ) : ℚ) + ((-1/100 : ℚ) + (-1) * (0 * (1 / 100))) * ((16 : ℕ) : ℚ)
      = 9996 / 25 := by norm_num
  rw [hx, hy, truncQ_intCast, truncQ_of_nonneg _ (by norm_num)]
  norm_num [Int.floor_eq_iff]

/-- C10 (amended): After every `Ship.update`, both components of the ship's
position remain integers: each rect coordinate becomes the float sum
`old + velocity * dt` truncated toward zero, i.e. the fractional part of
the *sum* is discarded. For motion in the positive direction from a
non-negative position this loses the sub-pixel displacement, but for
motion in the negative direction at a positive coordinate a non-integral
sum snaps down a whole pixel, so sub-pixel displacement is not always
lost. -/
theorem ship_update_truncation_amended (s : ShipState) (dt : ℕ) (t : ℚ)
    (scr : Screen) :
    ∃ s', shipUpdate s dt t (some scr) = Except.ok s' ∧
      s'.x = truncQ ((s.x : ℚ) + s'.vx * (dt : ℚ)) ∧
      s'.y = truncQ ((s.y : ℚ) + s'.vy * (dt : ℚ)) :=
  ⟨_, rfl, rfl, rfl⟩

/-- C3: For every keyboard state and every list of attached joysticks
(zero or more) whose mappings and axis indices resolve, `paddle()` equals
the sum of the keyboard contribution (−1.0 if left arrow held, +1.0 if
right arrow held) plus each joystick's mapped paddle-axis value with no
inversion applied, clamped to [-1, 1]; the returned value always lies in
the closed interval [-1, 1] even when the raw sum falls outside it. -/
theorem paddle_clamped_sum (table : ConfigTable) (k : KeyState)
    (js : List Joystick)
    (h : ∀ j ∈ js, ∃ i v, paddleAxisOf table j = some i ∧ getAxis j i = some v) :
    paddle table k js =
      Except.ok (max (-1) (min 1 (rawPaddleSum table k js))) ∧
    ∀ m, paddle table k js = Except.ok m → -1 ≤ m ∧ m ≤ 1 := by
  have hl := paddleLoop_ok table js (kbPaddle k) h
  have hp : paddle table k js =
      Except.ok (max (-1) (min 1 (rawPaddleSum table k js))) := by
    simp only [paddle, hl, rawPaddleSum]
  refine ⟨hp, ?_⟩
  intro m hm
  rw [hp] at hm
  injection hm with hm'
  subst hm'
  constructor
  · exact le_max_left _ _
  · exact max_le (by norm_num) (min_le_left _ _)

/-- Witness for C3: right arrow held plus one joystick whose mapped axis
reads 3/2, so the raw sum 5/2 is clamped to 1. -/
theorem paddle_clamped_sum_witness :
    paddle buttonMappingTable kRight [jx] =
      Except.ok (max (-1) (min 1 (rawPaddleSum buttonMappingTable kRight [jx]))) ∧
    ∀ m, paddle buttonMappingTable kRight [jx] = Except.ok m →
      -1 ≤ m ∧ m ≤ 1 :=
  paddle_clamped_sum buttonMappingTable kRight [jx] (by
    intro j hj
    rw [List.mem_singleton] at hj
    subst hj
    exact ⟨0, 3/2, rfl, rfl⟩)

/-- C4: `serve()` returns true if and only if the space bar is held OR at
least one attached joystick's mapped fire button has magnitude exceeding
0.5 (given that every joystick's mapping and button index resolve); it
returns false when every source is inactive. The underlying `serveLoop`
returns as soon as one source is active, mirroring the code's early
`return True`. -/
theorem serve_or_spec (table : ConfigTable) (k : KeyState) (js : List Joystick)
    (h : ∀ j ∈ js, ∃ i v, serveButtonOf table j = some i ∧ getButton j i = some v) :
    ∃ b, serve table k js = Except.ok b ∧
      (b = true ↔ (k.space = true ∨ ∃ j ∈ js, ∃ i v,
        serveButtonOf table j = some i ∧ getButton j i = some v ∧ 1/2 < |v|)) := by
  by_cases hs : k.space = true
  · refine ⟨true, ?_, by simp [hs]⟩
    simp [serve, hs]
  · obtain ⟨b, hb, hiff⟩ := serveLoop_ok table js h
    refine ⟨b, ?_, ?_⟩
    · simp only [serve]
      rw [if_neg hs]
      exact hb
    · rw [hiff]
      constructor
      · intro hx
        exact Or.inr hx
      · rintro (hsp | hx)
        · exact absurd hsp hs
        · exact hx

/-- Witness for C4: no key held, one joystick whose mapped button reads 1
(magnitude above 0.5). -/
theorem serve_or_spec_witness :
    ∃ b, serve buttonMappingTable kNone [jx] = Except.ok b ∧
      (b = true ↔ (kNone.space = true ∨ ∃ j ∈ [jx], ∃ i v,
        serveButtonOf buttonMappingTable j = some i ∧
        getButton j i = some v ∧ 1/2 < |v|)) :=
  serve_or_spec buttonMappingTable kNone [jx] (by
    intro j hj
    rw [List.mem_singleton] at hj
    subst hj
    exact ⟨0, 1, rfl, rfl⟩)

/-- C5: If an attached joystick's resolved mapping (its GUID's entry, or
the `"default"` entry as fallback) is missing a required field, then
`ControllerInput` construction fails with a `RuntimeError` whose message
names the device GUID, names the missing field, and states whether the
GUID matched an explicit entry or fell back to `"default"`; the error is
raised during `__init__`, before any game loop can begin. The failing
joystick here is the first one with an incomplete mapping. -/
theorem ctrl_init_config_error (pg : Bool) (table : ConfigTable)
    (pre : List Joystick) (j : Joystick) (rest : List Joystick)
    (bm : ButtonMapping) (known : Bool) (f : MissingField)
    (hpre : ∀ jj ∈ pre, validateJoystick table jj = Except.ok ())
    (hres : resolveMapping table j.guid = some (bm, known))
    (hmiss : firstMissing bm = some f) :
    (ctrlInit pg (pre ++ j :: rest) table).2.2 =
      Except.error (msgHead j.guid known ++ fieldText f) ∧
    (∃ a b, msgHead j.guid known ++ fieldText f = a ++ j.guid ++ b) ∧
    (∃ a b, msgHead j.guid known ++ fieldText f = a ++ fieldName f ++ b) ∧
    (known = true → ∃ b, msgHead j.guid known ++ fieldText f =
      "The joystick with the GUID \"" ++ j.guid ++
        "\" has an entry in the controller_config.py file but it" ++ b) ∧
    (known = false → ∃ b, msgHead j.guid known ++ fieldText f =
      "The joystick with the GUID \"" ++ j.guid ++
        "\" does not have an entry in controller_config.py file and the entry for the \"default\" GUID" ++ b) := by
  have hvj : validateJoystick table j =
      Except.error (msgHead j.guid known ++ fieldText f) := by
    simp only [validateJoystick, hres, hmiss]
  have hne : (pre ++ j :: rest).isEmpty = false := by
    cases pre <;> rfl
  refine ⟨?_, ?_, ?_, ?_, ?_⟩
  · simp only [ctrlInit]
    rw [if_neg (by simp [hne]), validateAll_append_error table pre j rest _ hpre hvj]
  · cases known
    · exact ⟨"The joystick with the GUID \"",
        "\" does not have an entry in controller_config.py file and the entry for the \"default\" GUID"
          ++ fieldText f,
        by simp [msgHead, String.append_assoc]⟩
    · exact ⟨"The joystick with the GUID \"",
        "\" has an entry in the controller_config.py file but it" ++ fieldText f,
        by simp [msgHead, String.append_assoc]⟩
  · cases f
    · exact ⟨msgHead j.guid known ++ " does not have an \"", "\" entry in it.",
        by rw [fieldText, fieldName,
          show (" does not have an \"paddle\" entry in it." : String) =
            " does not have an \"" ++ "paddle" ++ "\" entry in it." from by decide]
           simp [String.append_assoc]⟩
    · exact ⟨msgHead j.guid known ++ " does not have an \"",
        "\" entry in its \"paddle\" entry.",
        by rw [fieldText, fieldName,
          show (" does not have an \"axis\" entry in its \"paddle\" entry." : String) =
            " does not have an \"" ++ "axis" ++ "\" entry in its \"paddle\" entry." from by decide]
           simp [String.append_assoc]⟩
    · exact ⟨msgHead j.guid known ++ " does not have an \"", "\" entry in it.",
        by rw [fieldText, fieldName,
          show (" does not have an \"serve\" entry in it." : String) =
            " does not have an \"" ++ "serve" ++ "\" entry in it." from by decide]
           simp [String.append_assoc]⟩
    · exact ⟨msgHead j.guid known ++ " does not have an \"",
        "\" entry in its \"serve\" entry.",
        by rw [fieldText, fieldName,
          show (" does not have an \"button\" entry in its \"serve\" entry." : String) =
            " does not have an \"" ++ "button" ++ "\" entry in its \"serve\" entry." from by decide]
           simp [String.append_assoc]⟩
  · intro hk
    subst hk
    exact ⟨fieldText f, by simp [msgHead, String.append_assoc]⟩
  · intro hk
    subst hk
    exact ⟨fieldText f, by simp [msgHead, String.append_assoc]⟩

/-- Witness for C5: one attached joystick with an unknown GUID while the
`"default"` entry lacks the `"paddle"` field. -/
theorem ctrl_init_config_error_witness :
    (ctrlInit true ([] ++ jBad :: []) tblBad).2.2 =
      Except.error (msgHead jBad.guid false ++ fieldText .paddleEntry) ∧
    (∃ a b, msgHead jBad.guid false ++ fieldText .paddleEntry =
      a ++ jBad.guid ++ b) ∧
    (∃ a b, msgHead jBad.guid false ++ fieldText .paddleEntry =
      a ++ fieldName .paddleEntry ++ b) ∧
    (false = true → ∃ b, msgHead jBad.guid false ++ fieldText .paddleEntry =
      "The joystick with the GUID \"" ++ jBad.guid ++
        "\" has an entry in the controller_config.py file but it" ++ b) ∧
    (false = false → ∃ b, msgHead jBad.guid false ++ fieldText .paddleEntry =
      "The joystick with the GUID \"" ++ jBad.guid ++
        "\" does not have an entry in controller_config.py file and the entry for the \"default\" GUID" ++ b) :=
  ctrl_init_config_error true tblBad [] jBad [] ⟨none, none, none⟩ false
    .paddleEntry (by simp) rfl rfl

/-- C6: Constructing the controller-input aggregator again once a singleton
instance exists returns that same instance unchanged, prints nothing,
leaves the pygame-initialized flag as it was, and succeeds without reading
the joysticks or the mapping table (both are universally quantified,
including invalid tables), so no re-enumeration or re-validation occurs. -/
theorem ctrl_reconstruct_noop (s : CtrlState) (pg : Bool) (js : List Joystick)
    (table : ConfigTable) :
    ctrlConstruct (some s) pg js table = ([], pg, Except.ok s) := rfl

/-- C7 counterexample: constructing `ControllerInput` with pygame not yet
initialized (no joysticks, the real mapping table) does *not* raise: it
returns a constructed state, prints the warning, and auto-initializes
pygame — contradicting the claim that construction fails fatally and never
auto-initializes. -/
theorem ctrl_init_uninit_pygame_cex :
    (ctrlConstruct none false [] buttonMappingTable).2.2 =
      Except.ok ⟨[]⟩ ∧
    (ctrlConstruct none false [] buttonMappingTable).1 = [warnMsg] ∧
    (ctrlConstruct none false [] buttonMappingTable).2.1 = true :=
  ⟨rfl, rfl, rfl⟩

/-- C7 (amended): If the controller-input aggregator is constructed before
pygame is initialized, construction does not raise for that reason:
it prints a warning and itself initializes pygame, then proceeds exactly
as it would have with pygame already initialized. -/
theorem ctrl_init_uninit_pygame_amended (js : List Joystick)
    (table : ConfigTable) :
    (ctrlConstruct none false js table).1 = [warnMsg] ∧
    (ctrlConstruct none false js table).2.1 = true ∧
    (ctrlConstruct none false js table).2.2 =
      (ctrlConstruct none true js table).2.2 :=
  ⟨rfl, rfl, rfl⟩

/-- C9: With zero joysticks attached, `ControllerInput` construction
always succeeds — for every mapping table, even one missing every required
field — because the per-device validation loop only runs over attached
joysticks; and `paddle()` then returns exactly the keyboard
contribution. -/
theorem ctrl_init_no_joysticks (pg : Bool) (table : ConfigTable)
    (k : KeyState) :
    (ctrlConstruct none pg [] table).2.2 = Except.ok ⟨[]⟩ ∧
    paddle table k [] = Except.ok (kbPaddle k) := by
  constructor
  · rfl
  · have hl : paddleLoop table [] (kbPaddle k) = Except.ok (kbPaddle k) := rfl
    simp only [paddle, hl]
    refine congrArg Except.ok ?_
    rcases k with ⟨l, r, u, d, sp⟩
    simp only [kbPaddle]
    cases l <;> cases r <;> norm_num

end SpaceRocks
